import Mathlib

/-!
Shallow embedding of the usage-polling core of the Claude-Code-Usage-Monitor
repository (src/poller.rs, src/models.rs, src/window.rs).

Modelling conventions:
* `SystemTime` is modelled as `Int`, milliseconds since the Unix epoch;
  `Duration` is modelled as `Nat`, milliseconds.  `Duration::as_secs` is
  division by 1000.
* Rust `f64` values (utilization percentages) are modelled as exact
  rationals `ℚ`; the claims under study only depend on equality with 0,
  multiplication by 100 and the forced value 100, all of which are exact
  in `f64` for the decimal header values involved.
* Network I/O is modelled by passing the per-target request result in as
  a function argument; file I/O by passing the loaded credentials in.
* `u32` arithmetic from window.rs is modelled on `Nat` with explicit
  saturation at `U32_MAX`.
-/

namespace Monitor

/-! ## models.rs -/

/-- `UsageSection` from src/models.rs: one rate-limit window. -/
structure UsageSection where
  percentage : ℚ
  resets_at : Option Int
deriving Repr, DecidableEq

/-- `UsageData` from src/models.rs: the two-window snapshot. -/
structure UsageData where
  session : UsageSection
  weekly : UsageSection
deriving Repr, DecidableEq

/-- `UsageSection::default()`. -/
def UsageSection.default : UsageSection := { percentage := 0, resets_at := none }

/-- `UsageData::default()`. -/
def UsageData.default : UsageData :=
  { session := UsageSection.default, weekly := UsageSection.default }

/-! ## String → number parsing (model of Rust `str::parse`) -/

/-- Value of a list of decimal digit characters. -/
def digitsToNat (cs : List Char) : Nat :=
  cs.foldl (fun a c => 10 * a + (c.toNat - 48)) 0

/-- All characters are ASCII decimal digits. -/
def allDigits (cs : List Char) : Bool := cs.all Char.isDigit

/-- Strip an optional leading sign, returning (isNegative, rest). -/
def splitSign : List Char → Bool × List Char
  | '-' :: rest => (true, rest)
  | '+' :: rest => (false, rest)
  | cs => (false, cs)

/-- Mantissa of a decimal literal: `digits`, `digits.digits?` or `.digits`. -/
def parseMantissa (cs : List Char) : Option ℚ :=
  match cs.splitOn '.' with
  | [ip] => if ip ≠ [] ∧ allDigits ip then some (digitsToNat ip) else none
  | [ip, fp] =>
      if (ip ≠ [] ∨ fp ≠ []) ∧ allDigits ip ∧ allDigits fp then
        some ((digitsToNat ip : ℚ) + (digitsToNat fp : ℚ) / (10 : ℚ) ^ fp.length)
      else none
  | _ => none

/-- Model of Rust `str::parse::<f64>()` restricted to finite decimal
literals (optional sign, decimal mantissa, optional decimal exponent);
the exact rational value is returned instead of the rounded IEEE double.
`inf`/`NaN` inputs, which cannot occur in utilization headers, are
rejected. -/
def parse_f64 (s : String) : Option ℚ :=
  let cs := s.data.map Char.toLower
  let (neg, cs) := splitSign cs
  match cs.splitOn 'e' with
  | [m] => (parseMantissa m).map (fun q => if neg then -q else q)
  | [m, e] =>
      match parseMantissa m with
      | none => none
      | some q =>
          let (eneg, ecs) := splitSign e
          if ecs ≠ [] ∧ allDigits ecs then
            let p : ℚ := (10 : ℚ) ^ digitsToNat ecs
            let v := if eneg then q / p else q * p
            some (if neg then -v else v)
          else none
  | _ => none

/-- Model of Rust `str::parse::<i64>()`: optional sign, digits, value must
fit in the i64 range. -/
def parse_i64 (s : String) : Option Int :=
  let (neg, cs) := splitSign s.data
  if cs ≠ [] ∧ allDigits cs then
    let v : Int := if neg then -(digitsToNat cs : Int) else (digitsToNat cs : Int)
    if -(2 ^ 63) ≤ v ∧ v < 2 ^ 63 then some v else none
  else none

/-! ## poller.rs: responses and header extraction -/

/-- An HTTP response, reduced to its header list (name/value pairs); header
names are taken pre-normalized to lowercase, as in every lookup the source
performs. -/
structure Response where
  headers : List (String × String)
deriving Repr, DecidableEq

/-- `ureq::Response::header`: first header with the given name. -/
def Response.header (r : Response) (name : String) : Option String :=
  (r.headers.find? (fun p => p.1 == name)).map (·.2)

/-- `get_header_f64` from src/poller.rs: parse a header as f64, defaulting
to 0.0 when the header is absent or does not parse. -/
def get_header_f64 (r : Response) (name : String) : ℚ :=
  ((r.header name).bind parse_f64).getD 0

/-- `get_header_i64` from src/poller.rs. -/
def get_header_i64 (r : Response) (name : String) : Option Int :=
  (r.header name).bind parse_i64

/-- `get_header_str` from src/poller.rs. -/
def get_header_str (r : Response) (name : String) : Option String :=
  r.header name

/-- `unix_to_system_time` from src/poller.rs: negative timestamps are
treated as absent; a valid one becomes epoch-milliseconds. -/
def unix_to_system_time (unix_secs : Option Int) : Option Int :=
  match unix_secs with
  | none => none
  | some secs => if secs < 0 then none else some (secs * 1000)

/-- `parse_headers` from src/poller.rs: build a `UsageData` from the
response headers, with the rejected-status fallback rule. -/
def parse_headers (r : Response) : UsageData :=
  let session0 : UsageSection :=
    { percentage := get_header_f64 r "anthropic-ratelimit-unified-5h-utilization" * 100
      resets_at := unix_to_system_time (get_header_i64 r "anthropic-ratelimit-unified-5h-reset") }
  let weekly0 : UsageSection :=
    { percentage := get_header_f64 r "anthropic-ratelimit-unified-7d-utilization" * 100
      resets_at := unix_to_system_time (get_header_i64 r "anthropic-ratelimit-unified-7d-reset") }
  let overall_reset := get_header_i64 r "anthropic-ratelimit-unified-reset"
  if session0.percentage = 0 ∧ weekly0.percentage = 0 then
    let status := get_header_str r "anthropic-ratelimit-unified-status"
    let pair :=
      if status = some "rejected" then
        match get_header_str r "anthropic-ratelimit-unified-representative-claim" with
        | some "five_hour" => ({ session0 with percentage := 100 }, weekly0)
        | some "seven_day" => (session0, { weekly0 with percentage := 100 })
        | _ => (session0, weekly0)
      else (session0, weekly0)
    let session2 :=
      if pair.1.resets_at = none ∧ overall_reset.isSome then
        { pair.1 with resets_at := unix_to_system_time overall_reset }
      else pair.1
    { session := session2, weekly := pair.2 }
  else
    { session := session0, weekly := weekly0 }

/-! ## poller.rs: fetch with fallback -/

/-- Outcome of one probe request, as distinguished by the `match` in
`try_model`: `Ok(resp)`, `Err(ureq::Error::Status(code, resp))`, or any
other (transport-level) error. -/
inductive RequestResult where
  | success (r : Response)
  | httpError (code : Nat) (r : Response)
  | transportError
deriving Repr

/-- The response a `RequestResult` carries, if any (both HTTP success and
HTTP error statuses carry one). -/
def carried_response : RequestResult → Option Response
  | .success r => some r
  | .httpError _ r => some r
  | .transportError => none

/-- The acceptance test of `try_model`: the three headers whose presence
makes a response a carrier of rate-limit state. -/
def has_rate_limit_headers (r : Response) : Bool :=
  (r.header "anthropic-ratelimit-unified-5h-utilization").isSome
  || (r.header "anthropic-ratelimit-unified-7d-utilization").isSome
  || (r.header "anthropic-ratelimit-unified-status").isSome

/-- The spec's recognized-header list (§6): 5-hour utilization, 7-day
utilization, 5-hour reset, 7-day reset, overall reset, overall status,
representative claim.  Stated from the spec's words, for comparison with
`has_rate_limit_headers`, the test the source actually performs. -/
def spec_recognized_rate_limit_headers (r : Response) : Bool :=
  (r.header "anthropic-ratelimit-unified-5h-utilization").isSome
  || (r.header "anthropic-ratelimit-unified-7d-utilization").isSome
  || (r.header "anthropic-ratelimit-unified-5h-reset").isSome
  || (r.header "anthropic-ratelimit-unified-7d-reset").isSome
  || (r.header "anthropic-ratelimit-unified-reset").isSome
  || (r.header "anthropic-ratelimit-unified-status").isSome
  || (r.header "anthropic-ratelimit-unified-representative-claim").isSome

/-- `MODEL_FALLBACK_CHAIN` from src/poller.rs. -/
def MODEL_FALLBACK_CHAIN : List String :=
  ["claude-3-haiku-20240307", "claude-haiku-4-5-20251001"]

/-- `PollError` from src/poller.rs; note that `allModelsFailed` carries no
payload. -/
inductive PollError where
  | noCredentials
  | tokenExpired
  | allModelsFailed
deriving Repr, DecidableEq

/-- `try_model` from src/poller.rs.  The network is the argument `net`
(token → model → result of the probe request).  An HTTP error status still
yields its response; only a transport error yields none.  The response is
accepted iff it bears at least one of the three tested headers. -/
def try_model (net : String → String → RequestResult) (token model : String) :
    Option UsageData :=
  match net token model with
  | .success response =>
      if has_rate_limit_headers response then some (parse_headers response) else none
  | .httpError _ response =>
      if has_rate_limit_headers response then some (parse_headers response) else none
  | .transportError => none

/-- Loop body of `fetch_usage_with_fallback`. -/
def fetch_go (net : String → String → RequestResult) (token : String) :
    List String → Except PollError UsageData
  | [] => .error .allModelsFailed
  | model :: rest =>
      match try_model net token model with
      | some data => .ok data
      | none => fetch_go net token rest

/-- `fetch_usage_with_fallback` from src/poller.rs. -/
def fetch_usage_with_fallback (net : String → String → RequestResult)
    (token : String) : Except PollError UsageData :=
  fetch_go net token MODEL_FALLBACK_CHAIN

/-! ## poller.rs: credentials and poll -/

/-- `Credentials` from src/poller.rs (`expires_at` is epoch-milliseconds). -/
structure Credentials where
  access_token : String
  refresh_token : Option String
  expires_at : Option Int
deriving Repr, DecidableEq

/-- `is_token_expired` from src/poller.rs, with the current time as an
explicit argument (epoch-milliseconds). -/
def is_token_expired (expires_at : Option Int) (now : Int) : Bool :=
  match expires_at with
  | none => false
  | some exp => decide (exp ≤ now)

/-- `poll` from src/poller.rs.  `creds` is the result of
`read_credentials` (file I/O made an argument), `refreshResult` the result
of `refresh_access_token` for a given refresh token (network made an
argument), `net` the probe network. -/
def poll (creds : Option Credentials) (now : Int)
    (refreshResult : String → Except String String)
    (net : String → String → RequestResult) : Except PollError UsageData :=
  match creds with
  | none => .error .noCredentials
  | some c =>
      if is_token_expired c.expires_at now then
        match c.refresh_token with
        | none => .error .tokenExpired
        | some refresh =>
            match refreshResult refresh with
            | .error _ => .error .tokenExpired
            | .ok token => fetch_usage_with_fallback net token
      else
        fetch_usage_with_fallback net c.access_token

/-! ## poller.rs: display formatting -/

/-- Whole seconds remaining from `now` until `reset` (both epoch-millis);
meaningful when `now ≤ reset`. -/
def csecs (reset now : Int) : Nat := (reset - now).toNat / 1000

/-- Rust `{:.0}` float formatting: round half to even. -/
def round_half_even (q : ℚ) : Int :=
  let n := ⌊q⌋
  let frac := q - n
  if frac < 1 / 2 then n
  else if 1 / 2 < frac then n + 1
  else if n % 2 = 0 then n else n + 1

/-- `format_countdown` from src/poller.rs. -/
def format_countdown (resets_at : Option Int) (now : Int) : String :=
  match resets_at with
  | none => ""
  | some reset =>
      if reset < now then "now"
      else
        let total_secs := csecs reset now
        let total_mins := total_secs / 60
        let total_hours := total_secs / 3600
        let total_days := total_secs / 86400
        if total_days ≥ 1 then toString total_days ++ "d"
        else if total_mins > 61 then toString total_hours ++ "h"
        else if total_secs > 60 then toString total_mins ++ "m"
        else toString total_secs

/-- `format_line` from src/poller.rs. -/
def format_line (sec : UsageSection) (now : Int) : String :=
  let pct := toString (round_half_even sec.percentage) ++ "%"
  let cd := format_countdown sec.resets_at now
  if cd = "" then pct else pct ++ " · " ++ cd

/-- `time_until_display_change` from src/poller.rs (result in millis). -/
def time_until_display_change (resets_at : Option Int) (now : Int) : Option Nat :=
  match resets_at with
  | none => none
  | some reset =>
      if reset < now then none
      else
        let remaining := (reset - now).toNat
        let total_secs := remaining / 1000
        let total_mins := total_secs / 60
        let total_hours := total_secs / 3600
        let total_days := total_secs / 86400
        if total_secs ≤ 60 then some 1000
        else
          let next_boundary :=
            if total_days ≥ 1 then total_days * 86400000
            else if total_mins > 61 then
              if total_hours > 1 then total_hours * 3600000 else 61 * 60000
            else total_mins * 60000
          let delay := remaining - next_boundary
          if delay > 0 then some (delay + 1000) else some 1000

/-- `is_past_reset` from src/poller.rs: some section's reset time is at or
before now (`now.duration_since(t).is_ok()`). -/
def is_past_reset (data : UsageData) (now : Int) : Bool :=
  let past := fun (s : UsageSection) =>
    match s.resets_at with
    | some t => decide (t ≤ now)
    | none => false
  past data.session || past data.weekly

/-! ## window.rs: scheduler state and event handlers

Only the poll/display/schedule fields of `AppState` are embedded; the
window handles, theme flag and geometry the struct also carries are GUI
state outside the claims.  Timer API calls are modelled as an emitted
command list. -/

/-- `RETRY_BASE_MS` from src/window.rs. -/
def RETRY_BASE_MS : Nat := 30000

def POLL_1_MIN : Nat := 60000
def POLL_5_MIN : Nat := 300000
def POLL_15_MIN : Nat := 900000
def POLL_1_HOUR : Nat := 3600000

/-- `u32::MAX`. -/
def U32_MAX : Nat := 4294967295

/-- `u32::saturating_add` on the Nat model. -/
def sat_add_u32 (a b : Nat) : Nat := min (a + b) U32_MAX

/-- `1u32.checked_shl(n)`: none when the shift amount is ≥ 32. -/
def checked_shl_one (n : Nat) : Option Nat :=
  if n < 32 then some (2 ^ n) else none

/-- `u32::saturating_mul` on the Nat model. -/
def sat_mul_u32 (a b : Nat) : Nat := min (a * b) U32_MAX

/-- Timer ids from src/native_interop.rs. -/
def TIMER_POLL : Nat := 1
def TIMER_COUNTDOWN : Nat := 2
def TIMER_RESET_POLL : Nat := 3

/-- A `SetTimer`/`KillTimer` call issued by an event handler. -/
inductive TimerCmd where
  | set (id : Nat) (ms : Nat)
  | kill (id : Nat)
deriving Repr, DecidableEq

/-- The dynamic fields of `AppState` from src/window.rs. -/
structure AppState where
  session_percent : ℚ
  session_text : String
  weekly_percent : ℚ
  weekly_text : String
  data : Option UsageData
  poll_interval_ms : Nat
  retry_count : Nat
  last_poll_ok : Bool
deriving Repr, DecidableEq

/-- `do_poll` from src/window.rs: consume one poll outcome, update the
state, emit the timer calls the source makes (in source order). -/
def do_poll (s : AppState) (outcome : Except PollError UsageData) (now : Int) :
    AppState × List TimerCmd :=
  match outcome with
  | .ok data =>
      let s1 := { s with
        session_percent := data.session.percentage
        weekly_percent := data.weekly.percentage
        session_text := format_line data.session now
        weekly_text := format_line data.weekly now }
      let kills := if ¬ (is_past_reset data now = true) then [TimerCmd.kill TIMER_RESET_POLL] else []
      let s2 := { s1 with data := some data, last_poll_ok := true }
      if s2.retry_count > 0 then
        ({ s2 with retry_count := 0 }, kills ++ [TimerCmd.set TIMER_POLL s2.poll_interval_ms])
      else
        (s2, kills)
  | .error _ =>
      let s1 := { s with
        session_text := "..."
        weekly_text := "..."
        last_poll_ok := false
        retry_count := sat_add_u32 s.retry_count 1 }
      let backoff := sat_mul_u32 RETRY_BASE_MS ((checked_shl_one (s1.retry_count - 1)).getD U32_MAX)
      let retry_ms := min backoff s1.poll_interval_ms
      (s1, [TimerCmd.set TIMER_POLL retry_ms])

/-- `update_display` from src/window.rs: on a countdown tick, refuse to
touch the texts when the last poll failed; otherwise recompute both lines
from the cached data. -/
def update_display (s : AppState) (now : Int) : AppState :=
  if ¬ (s.last_poll_ok = true) then s
  else
    match s.data with
    | some data =>
        { s with
          session_text := format_line data.session now
          weekly_text := format_line data.weekly now }
    | none => s

/-- The state change of the `TIMER_COUNTDOWN` branch of `wnd_proc`
(src/window.rs): it calls `update_display` (then re-renders and
reschedules the countdown timer, neither of which touches the texts). -/
def on_countdown_tick (s : AppState) (now : Int) : AppState :=
  update_display s now

/-- The `IDM_FREQ_*` branch of `WM_COMMAND` in `wnd_proc`
(src/window.rs): store the new interval, then unconditionally
`SetTimer(TIMER_POLL, new_interval)`. -/
def wnd_proc_set_frequency (s : AppState) (new_interval : Nat) :
    AppState × List TimerCmd :=
  ({ s with poll_interval_ms := new_interval }, [TimerCmd.set TIMER_POLL new_interval])

/-! ## Theorems -/

/-- Either branch of the rescheduling `if` in `time_until_display_change`
yields a delay of at least one second. -/
theorem ite_some_ge (c : Prop) [Decidable c] (x : Nat) :
    ∃ d, (if c then some (x + 1000) else some 1000) = some d ∧ 1000 ≤ d := by
  by_cases h : c
  · exact ⟨x + 1000, by rw [if_pos h], by omega⟩
  · exact ⟨1000, by rw [if_neg h], le_refl 1000⟩

/-- Unfolding of `format_countdown` when the reset has not yet passed. -/
theorem format_countdown_eq (reset now : Int) (h : ¬ reset < now) :
    format_countdown (some reset) now =
      (if csecs reset now / 86400 ≥ 1 then toString (csecs reset now / 86400) ++ "d"
       else if csecs reset now / 60 > 61 then toString (csecs reset now / 3600) ++ "h"
       else if csecs reset now > 60 then toString (csecs reset now / 60) ++ "m"
       else toString (csecs reset now)) := by
  simp only [format_countdown, if_neg h]

/-- C4: `format_countdown` returns "now" when the reset time has already
passed; otherwise, with the remaining duration measured in whole units,
it returns days when at least one whole day remains, hours when more than
61 whole minutes remain, minutes when more than 60 seconds remain, and in
the final minute the literal remaining seconds as digits. -/
theorem format_countdown_tiers (reset now : Int) :
    (reset < now → format_countdown (some reset) now = "now")
    ∧ (now ≤ reset → 86400 ≤ csecs reset now →
        format_countdown (some reset) now = toString (csecs reset now / 86400) ++ "d")
    ∧ (now ≤ reset → csecs reset now < 86400 → 61 < csecs reset now / 60 →
        format_countdown (some reset) now = toString (csecs reset now / 3600) ++ "h")
    ∧ (now ≤ reset → csecs reset now / 60 ≤ 61 → 60 < csecs reset now →
        format_countdown (some reset) now = toString (csecs reset now / 60) ++ "m")
    ∧ (now ≤ reset → csecs reset now ≤ 60 →
        format_countdown (some reset) now = toString (csecs reset now)) := by
  refine ⟨?_, ?_, ?_, ?_, ?_⟩
  · intro h
    simp only [format_countdown, if_pos h]
  · intro h1 h2
    rw [format_countdown_eq reset now (not_lt.mpr h1), if_pos (by omega)]
  · intro h1 h2 h3
    rw [format_countdown_eq reset now (not_lt.mpr h1), if_neg (by omega), if_pos (by omega)]
  · intro h1 h2 h3
    rw [format_countdown_eq reset now (not_lt.mpr h1), if_neg (by omega), if_neg (by omega),
      if_pos (by omega)]
  · intro h1 h2
    rw [format_countdown_eq reset now (not_lt.mpr h1), if_neg (by omega), if_neg (by omega),
      if_neg (by omega)]

/-- Witness for `format_countdown_tiers` at concrete inputs: 25 h before a
reset shows "1d"; 62 min shows "1h"; 61 min shows "61m"; 45 s shows "45";
a passed reset shows "now". -/
theorem format_countdown_tiers_witness :
    format_countdown (some 90000000) 0 = "1d"
    ∧ format_countdown (some 3720000) 0 = "1h"
    ∧ format_countdown (some 3660000) 0 = "61m"
    ∧ format_countdown (some 45000) 0 = "45"
    ∧ format_countdown (some (-5)) 0 = "now" := by
  refine ⟨?_, ?_, ?_, ?_, ?_⟩
  · exact ((format_countdown_tiers 90000000 0).2.1 (by decide) (by decide)).trans (by decide)
  · exact ((format_countdown_tiers 3720000 0).2.2.1 (by decide) (by decide) (by decide)).trans
      (by decide)
  · exact ((format_countdown_tiers 3660000 0).2.2.2.1 (by decide) (by decide) (by decide)).trans
      (by decide)
  · exact ((format_countdown_tiers 45000 0).2.2.2.2 (by decide) (by decide)).trans (by decide)
  · exact (format_countdown_tiers (-5) 0).1 (by decide)

/-- C5 counterexample: `time_until_display_change` returns none for a
present `resets_at` that has already passed (`duration_since(..).ok()?`
bails out), so "returns None only when resets_at is absent" is false. -/
theorem time_until_display_change_none_on_past :
    (some (-1000) : Option Int).isSome = true
    ∧ time_until_display_change (some (-1000)) 0 = none := by
  exact ⟨rfl, rfl⟩

/-- C5 (amended): when `resets_at` is present and has not yet passed,
`time_until_display_change` returns a duration of at least one second,
and exactly one second in the final 60-second tier; it returns none when
`resets_at` is absent or has already passed. -/
theorem time_until_display_change_pos (reset now : Int) :
    (now ≤ reset → ∃ d, time_until_display_change (some reset) now = some d ∧ 1000 ≤ d)
    ∧ (now ≤ reset → csecs reset now ≤ 60 →
        time_until_display_change (some reset) now = some 1000)
    ∧ (reset < now → time_until_display_change (some reset) now = none)
    ∧ time_until_display_change none now = none := by
  refine ⟨?_, ?_, ?_, rfl⟩
  · intro h1
    simp only [time_until_display_change, if_neg (not_lt.mpr h1)]
    by_cases hs : (reset - now).toNat / 1000 ≤ 60
    · rw [if_pos hs]
      exact ⟨1000, rfl, le_refl 1000⟩
    · rw [if_neg hs]
      exact ite_some_ge _ _
  · intro h1 h2
    simp only [time_until_display_change, if_neg (not_lt.mpr h1)]
    rw [if_pos]
    exact h2
  · intro h
    simp only [time_until_display_change, if_pos h]

/-- Witness for `time_until_display_change_pos`: 30 s before the reset the
function asks for a 1-second tick; none once the reset passed. -/
theorem time_until_display_change_pos_witness :
    time_until_display_change (some 30000) 0 = some 1000
    ∧ time_until_display_change (some (-7)) 0 = none := by
  constructor
  · exact (time_until_display_change_pos 30000 0).2.1 (by decide) (by decide)
  · exact (time_until_display_change_pos (-7) 0).2.2.1 (by decide)

/-- C1 counterexample: a response carrying only the 5-hour reset header —
one of the spec's seven recognized rate-limit headers — is not accepted by
`try_model` (the source tests only the two utilization headers and the
status header), and the whole fallback chain then fails. -/
theorem try_model_rejects_reset_only_header :
    spec_recognized_rate_limit_headers
        ⟨[("anthropic-ratelimit-unified-5h-reset", "100")]⟩ = true
    ∧ try_model
        (fun _ _ => RequestResult.success ⟨[("anthropic-ratelimit-unified-5h-reset", "100")]⟩)
        "token" "claude-3-haiku-20240307" = none
    ∧ fetch_usage_with_fallback
        (fun _ _ => RequestResult.success ⟨[("anthropic-ratelimit-unified-5h-reset", "100")]⟩)
        "token" = .error .allModelsFailed := by
  exact ⟨rfl, rfl, rfl⟩

/-- C1 (amended): for every token and target, a response (whether an HTTP
success or an HTTP error status) is accepted as a carrier of rate-limit
state exactly when it exposes at least one of the 5-hour utilization,
7-day utilization or overall status headers, in which case its parse is
returned; a transport failure is never accepted; and the fallback loop
returns the first accepted target's data, short-circuiting the rest. -/
theorem try_model_acceptance (net : String → String → RequestResult) (token : String) :
    (∀ model r, carried_response (net token model) = some r →
        try_model net token model =
          if has_rate_limit_headers r then some (parse_headers r) else none)
    ∧ (∀ model, carried_response (net token model) = none →
        try_model net token model = none)
    ∧ fetch_usage_with_fallback net token =
        (match MODEL_FALLBACK_CHAIN.findSome? (fun model => try_model net token model) with
         | some data => .ok data
         | none => .error .allModelsFailed) := by
  refine ⟨?_, ?_, ?_⟩
  · intro model r h
    cases hnet : net token model
    · simp only [carried_response, hnet, Option.some.injEq] at h
      subst h
      simp [try_model, hnet]
    · simp only [carried_response, hnet, Option.some.injEq] at h
      subst h
      simp [try_model, hnet]
    · simp [carried_response, hnet] at h
  · intro model h
    cases hnet : net token model
    · simp [carried_response, hnet] at h
    · simp [carried_response, hnet] at h
    · simp [try_model, hnet]
  · show fetch_go net token MODEL_FALLBACK_CHAIN = _
    simp only [ MODEL_FALLBACK_CHAIN, fetch_go, List.findSome?]
    cases h1 : try_model net token "claude-3-haiku-20240307" <;>
      cases h2 : try_model net token "claude-haiku-4-5-20251001" <;>
        simp [fetch_go, h1, h2]

/-- Witness for `try_model_acceptance`: a 429 HTTP-error response bearing
only the status header is accepted and parsed. -/
theorem try_model_acceptance_witness :
    try_model
        (fun _ _ => RequestResult.httpError 429
          ⟨[("anthropic-ratelimit-unified-status", "allowed")]⟩) "tok" "m"
      = some (parse_headers ⟨[("anthropic-ratelimit-unified-status", "allowed")]⟩) := by
  exact ((try_model_acceptance
      (fun _ _ => RequestResult.httpError 429
        ⟨[("anthropic-ratelimit-unified-status", "allowed")]⟩) "tok").1 "m"
      ⟨[("anthropic-ratelimit-unified-status", "allowed")]⟩ rfl).trans (by rfl)

/-- C9 counterexample: exhausting the chain under two different per-target
failure modes (pure transport errors vs. responses without recognized
headers) produces the very same `AllModelsFailed` value — the error
carries no per-target diagnostic string. -/
theorem all_models_failed_no_details :
    fetch_usage_with_fallback (fun _ _ => RequestResult.transportError) "tokenA"
      = fetch_usage_with_fallback
          (fun _ _ => RequestResult.success ⟨[("content-type", "application/json")]⟩) "tokenB"
    ∧ fetch_usage_with_fallback (fun _ _ => RequestResult.transportError) "tokenA"
      = .error .allModelsFailed := by
  exact ⟨rfl, rfl⟩

/-- C9 (amended): when every fallback target is exhausted without a
header-bearing response, `fetch_usage_with_fallback` fails with the bare
`AllModelsFailed` error (the variant carries no per-target diagnostic;
error text is discarded). -/
theorem fetch_exhaustion_all_models_failed (net : String → String → RequestResult)
    (token : String)
    (h : ∀ model ∈ MODEL_FALLBACK_CHAIN, try_model net token model = none) :
    fetch_usage_with_fallback net token = .error .allModelsFailed := by
  have h1 := h "claude-3-haiku-20240307" (by simp [ MODEL_FALLBACK_CHAIN])
  have h2 := h "claude-haiku-4-5-20251001" (by simp [ MODEL_FALLBACK_CHAIN])
  simp [fetch_usage_with_fallback, MODEL_FALLBACK_CHAIN, fetch_go, h1, h2]

/-- Witness for `fetch_exhaustion_all_models_failed` on an all-transport-
failure network. -/
theorem fetch_exhaustion_all_models_failed_witness :
    fetch_usage_with_fallback (fun _ _ => RequestResult.transportError) "t"
      = .error .allModelsFailed :=
  fetch_exhaustion_all_models_failed (fun _ _ => RequestResult.transportError) "t"
    (fun _ _ => rfl)

/-- The saturating u32 backoff computation of `do_poll` agrees with the
ideal `min (30s * 2^c, interval)` for every failure count `c`, including
those where the 32-bit shift would overflow. -/
theorem backoff_formula (c I : Nat) (hI : I ≤ U32_MAX) :
    min (sat_mul_u32 RETRY_BASE_MS ((checked_shl_one c).getD U32_MAX)) I
      = min (RETRY_BASE_MS * 2 ^ c) I := by
  unfold sat_mul_u32 checked_shl_one RETRY_BASE_MS U32_MAX at *
  by_cases hc : c < 32
  · rw [if_pos hc]
    simp only [Option.getD_some]
    generalize 2 ^ c = t
    omega
  · rw [if_neg hc]
    simp only [Option.getD_none]
    have h2 : 4294967296 ≤ 2 ^ c := by
      calc (4294967296 : Nat) = 2 ^ 32 := by norm_num
        _ ≤ 2 ^ c := Nat.pow_le_pow_right (by norm_num) (by omega)
    have h3 : 2 ^ c ≤ 30000 * 2 ^ c := Nat.le_mul_of_pos_left _ (by norm_num)
    omega

/-- On a failed poll, `do_poll` leaves the steady interval alone,
increments the retry count and schedules the backoff timer. -/
theorem do_poll_fail (s : AppState) (e : PollError) (now : Int)
    (hI : s.poll_interval_ms ≤ U32_MAX) (hc : s.retry_count < U32_MAX) :
    (do_poll s (.error e) now).1.retry_count = s.retry_count + 1
    ∧ (do_poll s (.error e) now).1.poll_interval_ms = s.poll_interval_ms
    ∧ (do_poll s (.error e) now).2
        = [TimerCmd.set TIMER_POLL (min (RETRY_BASE_MS * 2 ^ s.retry_count) s.poll_interval_ms)] := by
  have hadd : sat_add_u32 s.retry_count 1 = s.retry_count + 1 := by
    unfold sat_add_u32 U32_MAX at *
    omega
  refine ⟨?_, ?_, ?_⟩
  · simp [do_poll, hadd]
  · simp [do_poll]
  · simp only [do_poll, hadd, Nat.add_sub_cancel]
    rw [backoff_formula _ _ hI]

/-- On a successful poll, `do_poll` resets the retry count and keeps the
steady interval. -/
theorem do_poll_ok (s : AppState) (d : UsageData) (now : Int) :
    (do_poll s (.ok d) now).1.retry_count = 0
    ∧ (do_poll s (.ok d) now).1.poll_interval_ms = s.poll_interval_ms := by
  constructor
  · simp only [do_poll]
    split
    · rfl
    · simp only [gt_iff_lt, not_lt, Nat.le_zero] at *
      assumption
  · simp only [do_poll]
    split <;> rfl

/-- C2: a failed poll increments `retry_count` to `k = retry_count + 1`
and reschedules the poll timer at exactly `min (30s * 2^(k-1),
steady_interval)` — even where the 32-bit shift would overflow, the
saturating arithmetic still yields the capped ideal value — and a single
successful poll resets `retry_count` to 0, so the next failure schedules
30 s again (the intervals on offer all exceed 30 s). -/
theorem do_poll_backoff_schedule (s : AppState) (e e2 : PollError) (d : UsageData)
    (now now2 now3 : Int)
    (hI : s.poll_interval_ms ≤ U32_MAX) (hc : s.retry_count < U32_MAX) :
    ((do_poll s (.error e) now).1.retry_count = s.retry_count + 1)
    ∧ ((do_poll s (.error e) now).2
        = [TimerCmd.set TIMER_POLL
            (min (RETRY_BASE_MS * 2 ^ s.retry_count) s.poll_interval_ms)])
    ∧ ((do_poll s (.ok d) now2).1.retry_count = 0)
    ∧ (RETRY_BASE_MS ≤ s.poll_interval_ms →
        (do_poll ((do_poll s (.ok d) now2).1) (.error e2) now3).2
          = [TimerCmd.set TIMER_POLL RETRY_BASE_MS]) := by
  obtain ⟨hf1, hf2, hf3⟩ := do_poll_fail s e now hI hc
  obtain ⟨ho1, ho2⟩ := do_poll_ok s d now2
  refine ⟨hf1, hf3, ho1, ?_⟩
  intro h30
  obtain ⟨-, -, hf3'⟩ := do_poll_fail ((do_poll s (.ok d) now2).1) e2 now3
    (by rw [ho2]; exact hI) (by rw [ho1]; unfold U32_MAX; omega)
  rw [hf3', ho1, ho2, pow_zero, mul_one, min_eq_left h30]

/-- Witness for `do_poll_backoff_schedule` at a concrete state: with a 15
minute interval and 4 previous failures the fifth failure schedules 8
minutes (30s·2⁴ = 480 s), a success then resets the count, and the next
failure schedules 30 s. -/
theorem do_poll_backoff_schedule_witness :
    ((do_poll
        { session_percent := 0, session_text := "--", weekly_percent := 0, weekly_text := "--",
          data := none, poll_interval_ms := 900000, retry_count := 4, last_poll_ok := false }
        (.error .noCredentials) 0).2 = [TimerCmd.set TIMER_POLL 480000])
    ∧ ((do_poll
        { session_percent := 0, session_text := "--", weekly_percent := 0, weekly_text := "--",
          data := none, poll_interval_ms := 900000, retry_count := 4, last_poll_ok := false }
        (.ok UsageData.default) 0).1.retry_count = 0) := by
  constructor
  · exact ((do_poll_backoff_schedule
      { session_percent := 0, session_text := "--", weekly_percent := 0, weekly_text := "--",
        data := none, poll_interval_ms := 900000, retry_count := 4, last_poll_ok := false }
      PollError.noCredentials PollError.noCredentials UsageData.default 0 0 0
      (by decide) (by decide)).2.1).trans (by decide)
  · exact (do_poll_backoff_schedule
      { session_percent := 0, session_text := "--", weekly_percent := 0, weekly_text := "--",
        data := none, poll_interval_ms := 900000, retry_count := 4, last_poll_ok := false }
      PollError.noCredentials PollError.noCredentials UsageData.default 0 0 0
      (by decide) (by decide)).2.2.1

/-- C7 counterexample: with `retry_count = 3` (Backoff), a user interval
change still issues `SetTimer(TIMER_POLL, new_interval)`, replacing the
pending backoff firing — the backoff cadence is not left unchanged. -/
theorem set_frequency_reschedules_during_backoff :
    (0 < ({ session_percent := 0, session_text := "...", weekly_percent := 0,
            weekly_text := "...", data := none, poll_interval_ms := 900000,
            retry_count := 3, last_poll_ok := false } : AppState).retry_count)
    ∧ (wnd_proc_set_frequency
        { session_percent := 0, session_text := "...", weekly_percent := 0,
          weekly_text := "...", data := none, poll_interval_ms := 900000,
          retry_count := 3, last_poll_ok := false } 60000).2
        = [TimerCmd.set TIMER_POLL 60000] := by
  exact ⟨by decide, rfl⟩

/-- C7 (amended): a user interval change stores the new steady interval
and unconditionally reschedules the poll timer at it, in Backoff just as
in SteadyPoll; `retry_count` is untouched, so the next failure continues
the backoff progression with its cap recomputed against the new
interval. -/
theorem set_frequency_effect (s : AppState) (n : Nat) (e : PollError) (now : Int) :
    ((wnd_proc_set_frequency s n).1 = { s with poll_interval_ms := n })
    ∧ ((wnd_proc_set_frequency s n).2 = [TimerCmd.set TIMER_POLL n])
    ∧ ((wnd_proc_set_frequency s n).1.retry_count = s.retry_count)
    ∧ (n ≤ U32_MAX → s.retry_count < U32_MAX →
        (do_poll ((wnd_proc_set_frequency s n).1) (.error e) now).2
          = [TimerCmd.set TIMER_POLL (min (RETRY_BASE_MS * 2 ^ s.retry_count) n)]) := by
  refine ⟨rfl, rfl, rfl, ?_⟩
  intro hn hc
  exact (do_poll_fail { s with poll_interval_ms := n } e now hn hc).2.2

/-- Witness for `set_frequency_effect`: shrinking the interval to 1 min
during the third backoff caps the next failure's delay at 1 min
(30s·2³ = 240 s would exceed it). -/
theorem set_frequency_effect_witness :
    (do_poll ((wnd_proc_set_frequency
        { session_percent := 0, session_text := "...", weekly_percent := 0,
          weekly_text := "...", data := none, poll_interval_ms := 900000,
          retry_count := 3, last_poll_ok := false } 60000).1)
      (.error .tokenExpired) 0).2 = [TimerCmd.set TIMER_POLL 60000] := by
  exact ((set_frequency_effect
      { session_percent := 0, session_text := "...", weekly_percent := 0,
        weekly_text := "...", data := none, poll_interval_ms := 900000,
        retry_count := 3, last_poll_ok := false } 60000
      PollError.tokenExpired 0).2.2.2 (by decide) (by decide)).trans (by decide)

/-- C8: on a countdown tick, if the last poll failed both display texts
are left untouched (an error indicator is never overwritten with stale
data); if it succeeded, both lines are recomputed from the cached
`UsageData`. -/
theorem countdown_tick_text_policy (s : AppState) (now : Int) :
    (s.last_poll_ok = false →
        (on_countdown_tick s now).session_text = s.session_text
        ∧ (on_countdown_tick s now).weekly_text = s.weekly_text)
    ∧ (∀ d, s.last_poll_ok = true → s.data = some d →
        (on_countdown_tick s now).session_text = format_line d.session now
        ∧ (on_countdown_tick s now).weekly_text = format_line d.weekly now) := by
  constructor
  · intro h
    simp [on_countdown_tick, update_display, h]
  · intro d h1 h2
    simp [on_countdown_tick, update_display, h1, h2]

/-- Witness for `countdown_tick_text_policy`: a failed-poll state keeps
its "..." markers through a tick; a successful state recomputes. -/
theorem countdown_tick_text_policy_witness :
    ((on_countdown_tick
        { session_percent := 0, session_text := "...", weekly_percent := 0,
          weekly_text := "...", data := none, poll_interval_ms := 900000,
          retry_count := 1, last_poll_ok := false } 0).session_text = "...")
    ∧ ((on_countdown_tick
        { session_percent := 42, session_text := "stale", weekly_percent := 10,
          weekly_text := "stale", data := some UsageData.default,
          poll_interval_ms := 900000, retry_count := 0, last_poll_ok := true } 0).session_text
        = format_line UsageData.default.session 0) := by
  constructor
  · exact ((countdown_tick_text_policy
      { session_percent := 0, session_text := "...", weekly_percent := 0,
        weekly_text := "...", data := none, poll_interval_ms := 900000,
        retry_count := 1, last_poll_ok := false } 0).1 rfl).1
  · exact ((countdown_tick_text_policy
      { session_percent := 42, session_text := "stale", weekly_percent := 10,
        weekly_text := "stale", data := some UsageData.default,
        poll_interval_ms := 900000, retry_count := 0, last_poll_ok := true } 0).2
      UsageData.default rfl rfl).1

/-- C6: credential validation inside `poll`: absent `expires_at` means the
stored token is used as-is and never considered expired; with `now ≥
expires_at`, a missing refresh token or a failed refresh attempt each fail
the poll with `TokenExpired`, and a successful refresh makes the fetch use
the freshly returned token for this call. -/
theorem poll_token_validation (c : Credentials) (now : Int)
    (refreshResult : String → Except String String)
    (net : String → String → RequestResult) :
    (c.expires_at = none →
        is_token_expired c.expires_at now = false
        ∧ poll (some c) now refreshResult net = fetch_usage_with_fallback net c.access_token)
    ∧ (∀ exp, c.expires_at = some exp → exp ≤ now → c.refresh_token = none →
        poll (some c) now refreshResult net = .error .tokenExpired)
    ∧ (∀ exp r msg, c.expires_at = some exp → exp ≤ now → c.refresh_token = some r →
        refreshResult r = .error msg →
        poll (some c) now refreshResult net = .error .tokenExpired)
    ∧ (∀ exp r t, c.expires_at = some exp → exp ≤ now → c.refresh_token = some r →
        refreshResult r = .ok t →
        poll (some c) now refreshResult net = fetch_usage_with_fallback net t) := by
  refine ⟨?_, ?_, ?_, ?_⟩
  · intro h
    constructor
    · simp [is_token_expired, h]
    · simp [poll, is_token_expired, h]
  · intro exp h1 h2 h3
    simp [poll, is_token_expired, h1, h2, h3]
  · intro exp r msg h1 h2 h3 h4
    simp [poll, is_token_expired, h1, h2, h3, h4]
  · intro exp r t h1 h2 h3 h4
    simp [poll, is_token_expired, h1, h2, h3, h4]

/-- Witness for `poll_token_validation`: a token expired at epoch+5 ms,
polled at epoch+10 ms with a succeeding refresh, fetches with the new
token; without a refresh token it fails with `TokenExpired`. -/
theorem poll_token_validation_witness :
    poll (some { access_token := "old", refresh_token := some "r", expires_at := some 5 }) 10
        (fun _ => .ok "new") (fun _ _ => RequestResult.transportError)
      = fetch_usage_with_fallback (fun _ _ => RequestResult.transportError) "new"
    ∧ poll (some { access_token := "old", refresh_token := none, expires_at := some 5 }) 10
        (fun _ => .ok "new") (fun _ _ => RequestResult.transportError)
      = .error .tokenExpired := by
  constructor
  · exact (poll_token_validation
      { access_token := "old", refresh_token := some "r", expires_at := some 5 } 10
      (fun _ => .ok "new") (fun _ _ => RequestResult.transportError)).2.2.2
      5 "r" "new" rfl (by decide) rfl rfl
  · exact (poll_token_validation
      { access_token := "old", refresh_token := none, expires_at := some 5 } 10
      (fun _ => .ok "new") (fun _ _ => RequestResult.transportError)).2.1
      5 rfl (by decide) rfl


/-- A header that is absent or does not parse contributes a zero
percentage term. -/
theorem get_header_f64_absent_mul (r : Response) (name : String)
    (h : (r.header name).bind parse_f64 = none) :
    get_header_f64 r name * 100 = 0 := by
  simp [get_header_f64, h]

/-- Forced-session branch of `parse_headers`: both percentages zero,
status rejected, claim names the 5-hour window. -/
theorem parse_headers_forced_session (r : Response)
    (h5 : get_header_f64 r "anthropic-ratelimit-unified-5h-utilization" * 100 = 0)
    (h7 : get_header_f64 r "anthropic-ratelimit-unified-7d-utilization" * 100 = 0)
    (hst : get_header_str r "anthropic-ratelimit-unified-status" = some "rejected")
    (hcl : get_header_str r "anthropic-ratelimit-unified-representative-claim"
        = some "five_hour") :
    (parse_headers r).session.percentage = 100 ∧ (parse_headers r).weekly.percentage = 0 := by
  constructor <;>
    · simp only [parse_headers, h5, h7, hst, hcl, eq_self_iff_true, and_self, if_true]
      all_goals (split <;> rfl)

/-- Forced-weekly branch of `parse_headers`: both percentages zero,
status rejected, claim names the 7-day window. -/
theorem parse_headers_forced_weekly (r : Response)
    (h5 : get_header_f64 r "anthropic-ratelimit-unified-5h-utilization" * 100 = 0)
    (h7 : get_header_f64 r "anthropic-ratelimit-unified-7d-utilization" * 100 = 0)
    (hst : get_header_str r "anthropic-ratelimit-unified-status" = some "rejected")
    (hcl : get_header_str r "anthropic-ratelimit-unified-representative-claim"
        = some "seven_day") :
    (parse_headers r).weekly.percentage = 100 ∧ (parse_headers r).session.percentage = 0 := by
  constructor <;>
    · simp only [parse_headers, h5, h7, hst, hcl, eq_self_iff_true, and_self, if_true]
      all_goals (split <;> rfl)

/-- Rejected status but a representative claim naming neither window:
no forcing happens. -/
theorem parse_headers_rejected_other (r : Response)
    (h5 : get_header_f64 r "anthropic-ratelimit-unified-5h-utilization" * 100 = 0)
    (h7 : get_header_f64 r "anthropic-ratelimit-unified-7d-utilization" * 100 = 0)
    (hst : get_header_str r "anthropic-ratelimit-unified-status" = some "rejected")
    (hcl1 : get_header_str r "anthropic-ratelimit-unified-representative-claim"
        ≠ some "five_hour")
    (hcl2 : get_header_str r "anthropic-ratelimit-unified-representative-claim"
        ≠ some "seven_day") :
    (parse_headers r).session.percentage = 0 ∧ (parse_headers r).weekly.percentage = 0 := by
  obtain ⟨cl, hcase⟩ : ∃ cl,
      get_header_str r "anthropic-ratelimit-unified-representative-claim" = cl := ⟨_, rfl⟩
  rw [hcase] at hcl1 hcl2
  constructor <;>
    · simp only [parse_headers, h5, h7, hst, hcase, eq_self_iff_true, and_self, if_true]
      all_goals (split <;> rfl)

/-- Outside the both-zero-and-rejected branch the percentages are the
plain parsed header values. -/
theorem parse_headers_not_rejected (r : Response)
    (hne : ¬ (get_header_f64 r "anthropic-ratelimit-unified-5h-utilization" * 100 = 0
        ∧ get_header_f64 r "anthropic-ratelimit-unified-7d-utilization" * 100 = 0
        ∧ get_header_str r "anthropic-ratelimit-unified-status" = some "rejected")) :
    (parse_headers r).session.percentage
        = get_header_f64 r "anthropic-ratelimit-unified-5h-utilization" * 100
    ∧ (parse_headers r).weekly.percentage
        = get_header_f64 r "anthropic-ratelimit-unified-7d-utilization" * 100 := by
  by_cases hz : get_header_f64 r "anthropic-ratelimit-unified-5h-utilization" * 100 = 0
      ∧ get_header_f64 r "anthropic-ratelimit-unified-7d-utilization" * 100 = 0
  · have hst : ¬ get_header_str r "anthropic-ratelimit-unified-status" = some "rejected" :=
      fun h => hne ⟨hz.1, hz.2, h⟩
    constructor <;>
      · simp only [parse_headers, hz.1, hz.2, hst, eq_self_iff_true, and_self, if_true,
          if_false]
        all_goals (split <;> rfl)
  · constructor <;>
      · simp only [parse_headers]
        rw [if_neg hz]

/-- In the both-zero branch a still-unset session reset time is filled
from the overall reset header when that header parses. -/
theorem parse_headers_reset_fill (r : Response)
    (h5 : get_header_f64 r "anthropic-ratelimit-unified-5h-utilization" * 100 = 0)
    (h7 : get_header_f64 r "anthropic-ratelimit-unified-7d-utilization" * 100 = 0)
    (hrn : unix_to_system_time (get_header_i64 r "anthropic-ratelimit-unified-5h-reset") = none)
    (hov : (get_header_i64 r "anthropic-ratelimit-unified-reset").isSome = true) :
    (parse_headers r).session.resets_at
      = unix_to_system_time (get_header_i64 r "anthropic-ratelimit-unified-reset") := by
  obtain ⟨cl, hcase⟩ : ∃ cl,
      get_header_str r "anthropic-ratelimit-unified-representative-claim" = cl := ⟨_, rfl⟩
  simp only [parse_headers, h5, h7, hrn, hov, hcase, eq_self_iff_true, and_self, if_true,
    and_true]
  split
  · split
    · rfl
    · rename_i hcond
      refine absurd ?_ hcond
      split <;> rfl
  · simp

/-- C3: in `parse_headers`, exactly when both parsed percentages are 0
and the status header is "rejected", a representative-claim header naming
the 5-hour window forces `session.percentage = 100` (weekly stays 0) and
one naming the 7-day window forces `weekly.percentage = 100` (session
stays 0); with any other claim, or outside that branch, the percentages
are the plain parsed values; and in the both-zero branch a still-unset
`session.resets_at` is filled from the overall reset header when that
header parses. -/
theorem parse_headers_rejected_fallback (r : Response) :
    (get_header_f64 r "anthropic-ratelimit-unified-5h-utilization" * 100 = 0 →
     get_header_f64 r "anthropic-ratelimit-unified-7d-utilization" * 100 = 0 →
     get_header_str r "anthropic-ratelimit-unified-status" = some "rejected" →
     get_header_str r "anthropic-ratelimit-unified-representative-claim" = some "five_hour" →
       (parse_headers r).session.percentage = 100 ∧ (parse_headers r).weekly.percentage = 0)
    ∧ (get_header_f64 r "anthropic-ratelimit-unified-5h-utilization" * 100 = 0 →
       get_header_f64 r "anthropic-ratelimit-unified-7d-utilization" * 100 = 0 →
       get_header_str r "anthropic-ratelimit-unified-status" = some "rejected" →
       get_header_str r "anthropic-ratelimit-unified-representative-claim" = some "seven_day" →
         (parse_headers r).weekly.percentage = 100 ∧ (parse_headers r).session.percentage = 0)
    ∧ (get_header_f64 r "anthropic-ratelimit-unified-5h-utilization" * 100 = 0 →
       get_header_f64 r "anthropic-ratelimit-unified-7d-utilization" * 100 = 0 →
       get_header_str r "anthropic-ratelimit-unified-status" = some "rejected" →
       get_header_str r "anthropic-ratelimit-unified-representative-claim" ≠ some "five_hour" →
       get_header_str r "anthropic-ratelimit-unified-representative-claim" ≠ some "seven_day" →
         (parse_headers r).session.percentage = 0 ∧ (parse_headers r).weekly.percentage = 0)
    ∧ (¬ (get_header_f64 r "anthropic-ratelimit-unified-5h-utilization" * 100 = 0
          ∧ get_header_f64 r "anthropic-ratelimit-unified-7d-utilization" * 100 = 0
          ∧ get_header_str r "anthropic-ratelimit-unified-status" = some "rejected") →
         (parse_headers r).session.percentage
            = get_header_f64 r "anthropic-ratelimit-unified-5h-utilization" * 100
         ∧ (parse_headers r).weekly.percentage
            = get_header_f64 r "anthropic-ratelimit-unified-7d-utilization" * 100)
    ∧ (get_header_f64 r "anthropic-ratelimit-unified-5h-utilization" * 100 = 0 →
       get_header_f64 r "anthropic-ratelimit-unified-7d-utilization" * 100 = 0 →
       unix_to_system_time (get_header_i64 r "anthropic-ratelimit-unified-5h-reset") = none →
       (get_header_i64 r "anthropic-ratelimit-unified-reset").isSome = true →
         (parse_headers r).session.resets_at
            = unix_to_system_time (get_header_i64 r "anthropic-ratelimit-unified-reset")) := by
  exact ⟨parse_headers_forced_session r, parse_headers_forced_weekly r,
    parse_headers_rejected_other r, parse_headers_not_rejected r,
    parse_headers_reset_fill r⟩

/-- Witness for `parse_headers_rejected_fallback`: a response with no
utilization headers, status "rejected", claim "five_hour" and an overall
reset of 500 forces the session window to 100 % (weekly stays 0) and
fills its reset time from the overall header. -/
theorem parse_headers_rejected_fallback_witness :
    (parse_headers ⟨[("anthropic-ratelimit-unified-status", "rejected"),
        ("anthropic-ratelimit-unified-representative-claim", "five_hour"),
        ("anthropic-ratelimit-unified-reset", "500")]⟩).session.percentage = 100
    ∧ (parse_headers ⟨[("anthropic-ratelimit-unified-status", "rejected"),
        ("anthropic-ratelimit-unified-representative-claim", "five_hour"),
        ("anthropic-ratelimit-unified-reset", "500")]⟩).weekly.percentage = 0
    ∧ (parse_headers ⟨[("anthropic-ratelimit-unified-status", "rejected"),
        ("anthropic-ratelimit-unified-representative-claim", "five_hour"),
        ("anthropic-ratelimit-unified-reset", "500")]⟩).session.resets_at = some 500000 := by
  refine ⟨?_, ?_, ?_⟩
  · exact ((parse_headers_rejected_fallback
      ⟨[("anthropic-ratelimit-unified-status", "rejected"),
        ("anthropic-ratelimit-unified-representative-claim", "five_hour"),
        ("anthropic-ratelimit-unified-reset", "500")]⟩).1
      (get_header_f64_absent_mul _ _ rfl) (get_header_f64_absent_mul _ _ rfl) rfl rfl).1
  · exact ((parse_headers_rejected_fallback
      ⟨[("anthropic-ratelimit-unified-status", "rejected"),
        ("anthropic-ratelimit-unified-representative-claim", "five_hour"),
        ("anthropic-ratelimit-unified-reset", "500")]⟩).1
      (get_header_f64_absent_mul _ _ rfl) (get_header_f64_absent_mul _ _ rfl) rfl rfl).2
  · exact ((parse_headers_rejected_fallback
      ⟨[("anthropic-ratelimit-unified-status", "rejected"),
        ("anthropic-ratelimit-unified-representative-claim", "five_hour"),
        ("anthropic-ratelimit-unified-reset", "500")]⟩).2.2.2.2
      (get_header_f64_absent_mul _ _ rfl) (get_header_f64_absent_mul _ _ rfl)
      rfl rfl).trans rfl

/-- C10: a recognized utilization header that is absent, or whose value
does not parse as a float, yields a percentage of exactly 0 via
`get_header_f64`'s 0.0 default — indistinguishable from true zero usage —
and such a malformed header can therefore satisfy the both-zero condition
that enables the forced-100 rejected fallback of `parse_headers`. -/
theorem get_header_f64_malformed_default (r : Response) (name : String) :
    (r.header name = none → get_header_f64 r name = 0)
    ∧ (∀ v, r.header name = some v → parse_f64 v = none → get_header_f64 r name = 0)
    ∧ (parse_headers ⟨[("anthropic-ratelimit-unified-5h-utilization", "garbage"),
        ("anthropic-ratelimit-unified-status", "rejected"),
        ("anthropic-ratelimit-unified-representative-claim", "five_hour")]⟩).session.percentage
        = 100 := by
  refine ⟨?_, ?_, ?_⟩
  · intro h
    simp [get_header_f64, h]
  · intro v h1 h2
    simp [get_header_f64, h1, h2]
  · exact (parse_headers_forced_session
      ⟨[("anthropic-ratelimit-unified-5h-utilization", "garbage"),
        ("anthropic-ratelimit-unified-status", "rejected"),
        ("anthropic-ratelimit-unified-representative-claim", "five_hour")]⟩
      (get_header_f64_absent_mul _ _ rfl) (get_header_f64_absent_mul _ _ rfl) rfl rfl).1

/-- Witness for `get_header_f64_malformed_default`: an absent header and
an unparseable header both read as exactly 0. -/
theorem get_header_f64_malformed_default_witness :
    get_header_f64 ⟨[]⟩ "anthropic-ratelimit-unified-5h-utilization" = 0
    ∧ get_header_f64 ⟨[("anthropic-ratelimit-unified-5h-utilization", "garbage")]⟩
        "anthropic-ratelimit-unified-5h-utilization" = 0 := by
  constructor
  · exact (get_header_f64_malformed_default ⟨[]⟩
      "anthropic-ratelimit-unified-5h-utilization").1 rfl
  · exact (get_header_f64_malformed_default
      ⟨[("anthropic-ratelimit-unified-5h-utilization", "garbage")]⟩
      "anthropic-ratelimit-unified-5h-utilization").2.1 "garbage" rfl rfl

end Monitor
